import Mathlib

/-!
Verification of the AutoSizer component ("SizeProvider" in the spec) of
react-virtualized. The implementation file `AutoSizer.js` is not part of the
sources available here (only its test suite `AutoSizer.jest.js` is), so the
component itself is modelled from the specification; the test harness's child
invocation (`getMarkup`) is embedded from the test source. Sizes and paddings
are modelled as integers (JS numbers in the tests are integers), and
`number|undefined` values as `Option Int`.
-/

namespace AutoSizer

/-- Modelled from the spec (section 3, Data Model): a Measurement is
`{width: number|undefined, height: number|undefined}`; a disabled axis is
always `undefined` in the value handed to the child/callback. -/
structure Measurement where
  width : Option Int
  height : Option Int
  deriving Repr, DecidableEq

/-- Modelled from the spec (sections 3 and 6): the configuration props of the
component: `disableWidth`, `disableHeight` (bool, default false) and
`defaultWidth`, `defaultHeight` (number, optional). -/
structure Config where
  disableWidth : Bool
  disableHeight : Bool
  defaultWidth : Option Int
  defaultHeight : Option Int
  deriving Repr, DecidableEq

/-- Modelled from the spec (section 6, collaborator "DOM node"): the readings
the component takes from its parent node: `offsetWidth`, `offsetHeight` and
the four computed padding values. -/
structure NodeSize where
  offsetWidth : Int
  offsetHeight : Int
  paddingTop : Int
  paddingRight : Int
  paddingBottom : Int
  paddingLeft : Int
  deriving Repr, DecidableEq

/-- Modelled from the spec (section 4.1, `measure()` / glossary
"Border-box sizing"): content width is the outer width minus left and right
padding. -/
def contentWidth (n : NodeSize) : Int :=
  n.offsetWidth - n.paddingLeft - n.paddingRight

/-- Modelled from the spec (section 4.1, `measure()` / glossary
"Border-box sizing"): content height is the outer height minus top and bottom
padding. -/
def contentHeight (n : NodeSize) : Int :=
  n.offsetHeight - n.paddingTop - n.paddingBottom

/-- Modelled from the spec (section 4.1, `measure()`): produce the
Measurement delivered to the child/callback from a node reading: the
border-box content size per axis, with a disabled axis forced to
`undefined`. -/
def measureDelivered (c : Config) (n : NodeSize) : Measurement :=
  { width := if c.disableWidth then none else some (contentWidth n)
    height := if c.disableHeight then none else some (contentHeight n) }

/-- Modelled from the spec (section 4.1, "initial render"): before any
measurement is possible, use `defaultWidth`/`defaultHeight` if provided, else
undefined, with a disabled axis forced to `undefined`. -/
def initialRender (c : Config) : Measurement :=
  { width := if c.disableWidth then none else c.defaultWidth
    height := if c.disableHeight then none else c.defaultHeight }

/-- Modelled from the spec (sections 3 and 4.1): the instance state: the
last-known Measurement used for change detection, whether a concrete
measurement has happened yet, the log of Measurements delivered to the child
by accepted resize events (re-renders), the log of Measurements passed to
`onResize`, and whether the instance has been unmounted. -/
structure State where
  stored : Measurement
  measured : Bool
  childLog : List Measurement
  resizeLog : List Measurement
  unmounted : Bool
  deriving Repr, DecidableEq

/-- Modelled from the spec (sections 3 and 4.1, "mount"): the state right
after the initial render, before any concrete measurement: the stored
Measurement holds the default values, nothing has been measured, no
re-render or callback has happened. -/
def mountState (c : Config) : State :=
  { stored := initialRender c
    measured := false
    childLog := []
    resizeLog := []
    unmounted := false }

/-- Modelled from the spec (section 4.1, `onResizeEvent()` gating): a new
delivered Measurement differs from the stored one on some enabled axis. -/
def gateDiffers (c : Config) (s : State) (new : Measurement) : Bool :=
  (!c.disableWidth && decide (s.stored.width ≠ new.width)) ||
  (!c.disableHeight && decide (s.stored.height ≠ new.height))

/-- Modelled from the spec (sections 4.1 and 9): a resize event is accepted
when the instance is mounted and either no concrete measurement has happened
yet (the very first measurement always triggers one callback) or some
enabled axis changed. -/
def accepts (c : Config) (n : NodeSize) (s : State) : Bool :=
  !s.unmounted && (!s.measured || gateDiffers c s (measureDelivered c n))

/-- Modelled from the spec (section 4.1, `onResizeEvent()`): re-run
`measure()`; if the gate accepts, store the new Measurement, re-render the
child with it and invoke `onResize` with it; otherwise do nothing. -/
def onResizeEvent (c : Config) (n : NodeSize) (s : State) : State :=
  let new := measureDelivered c n
  if accepts c n s then
    { stored := new
      measured := true
      childLog := s.childLog ++ [new]
      resizeLog := s.resizeLog ++ [new]
      unmounted := s.unmounted }
  else s

/-- Modelled from the spec (section 4.1, "mount"): mounting in a real DOM
performs an initial measurement pass on the freshly created state. -/
def mountWithDOM (c : Config) (n : NodeSize) : State :=
  onResizeEvent c n (mountState c)

/-- Modelled from the spec (section 4.1, "unmount"): unsubscribe from resize
notifications; afterwards no event has any effect. -/
def unmount (s : State) : State :=
  { s with unmounted := true }

/-- Modelled from the spec (section 5): delivery of a sequence of resize
events to an instance, one at a time on the single UI thread. -/
def run (c : Config) (events : List NodeSize) (s : State) : State :=
  events.foldl (fun s n => onResizeEvent c n s) s

/-- Modelled from the spec (section 8, callback counting): the number of
events of a sequence that the gate accepts along the trajectory. -/
def acceptedCount (c : Config) (s : State) : List NodeSize → Nat
  | [] => 0
  | n :: rest =>
      (if accepts c n s then 1 else 0) + acceptedCount c (onResizeEvent c n s) rest

/-- Embedded from `src/source/AutoSizer/AutoSizer.jest.js` lines 9-13 and
54-61: the props the test harness's child component receives. -/
structure ChildProps where
  width : Option Int
  height : Option Int
  foo : Int
  bar : Int
  deriving Repr, DecidableEq

/-- Embedded from `src/source/AutoSizer/AutoSizer.jest.js` lines 54-61
(`getMarkup`): the render function given to AutoSizer forwards `foo` and
`bar` from the enclosing scope unchanged and passes
`disableWidth ? undefined : width` and `disableHeight ? undefined : height`
to the child. -/
def renderChild (c : Config) (m : Measurement) (foo bar : Int) : ChildProps :=
  { width := if c.disableWidth then none else m.width
    height := if c.disableHeight then none else m.height
    foo := foo
    bar := bar }

end AutoSizer

namespace AutoSizer

lemma run_nil (c : Config) (s : State) : run c [] s = s := rfl

lemma run_cons (c : Config) (n : NodeSize) (rest : List NodeSize) (s : State) :
    run c (n :: rest) s = run c rest (onResizeEvent c n s) := rfl

lemma mem_onResizeEvent_log {c : Config} {n : NodeSize} {s : State} {m : Measurement} :
    (m ∈ (onResizeEvent c n s).childLog → m ∈ s.childLog ∨ m = measureDelivered c n) ∧
    (m ∈ (onResizeEvent c n s).resizeLog → m ∈ s.resizeLog ∨ m = measureDelivered c n) := by
  unfold onResizeEvent
  by_cases h : accepts c n s = true
  · simp [h]
  · simp [h]
    tauto

lemma run_logs_forall (c : Config) (P : Measurement → Prop)
    (hP : ∀ n : NodeSize, P (measureDelivered c n)) :
    ∀ (events : List NodeSize) (s : State),
      (∀ m ∈ s.childLog, P m) → (∀ m ∈ s.resizeLog, P m) →
      (∀ m ∈ (run c events s).childLog, P m) ∧ (∀ m ∈ (run c events s).resizeLog, P m)
  | [], s, hc, hr => ⟨hc, hr⟩
  | n :: rest, s, hc, hr => by
      rw [run_cons]
      refine run_logs_forall c P hP rest (onResizeEvent c n s) ?_ ?_
      · intro m hm
        rcases mem_onResizeEvent_log.1 hm with h | h
        · exact hc m h
        · exact h ▸ hP n
      · intro m hm
        rcases mem_onResizeEvent_log.2 hm with h | h
        · exact hr m h
        · exact h ▸ hP n

lemma onResizeEvent_resizeLog_length (c : Config) (n : NodeSize) (s : State) :
    (onResizeEvent c n s).resizeLog.length
      = s.resizeLog.length + (if accepts c n s then 1 else 0) := by
  unfold onResizeEvent
  by_cases h : accepts c n s = true <;> simp [h]

lemma acceptedCount_cons (c : Config) (s : State) (n : NodeSize) (rest : List NodeSize) :
    acceptedCount c s (n :: rest)
      = (if accepts c n s then 1 else 0) + acceptedCount c (onResizeEvent c n s) rest := rfl

lemma run_resizeLog_length (c : Config) :
    ∀ (events : List NodeSize) (s : State),
      (run c events s).resizeLog.length = s.resizeLog.length + acceptedCount c s events
  | [], s => by simp [run, acceptedCount]
  | n :: rest, s => by
      rw [run_cons, run_resizeLog_length c rest (onResizeEvent c n s),
        acceptedCount_cons, onResizeEvent_resizeLog_length]
      exact Nat.add_assoc _ _ _

lemma onResizeEvent_of_unmounted (c : Config) (n : NodeSize) (t : State)
    (h : t.unmounted = true) : onResizeEvent c n t = t := by
  unfold onResizeEvent accepts
  simp [h]

lemma run_of_unmounted (c : Config) :
    ∀ (events : List NodeSize) (t : State), t.unmounted = true → run c events t = t
  | [], _, _ => rfl
  | n :: rest, t, h => by
      rw [run_cons, onResizeEvent_of_unmounted c n t h]
      exact run_of_unmounted c rest t h

lemma onResizeEvent_of_reject (c : Config) (n : NodeSize) (t : State)
    (h : accepts c n t = false) : onResizeEvent c n t = t := by
  unfold onResizeEvent
  simp [h]

lemma accepts_onResizeEvent (c : Config) (n : NodeSize) (s : State)
    (h : accepts c n s = true) : accepts c n (onResizeEvent c n s) = false := by
  simp only [onResizeEvent, h]
  simp [accepts, gateDiffers]

end AutoSizer

namespace AutoSizer

/-- Claim C1: for every container with outer size W×H, border-box sizing and
paddings top t, right r, bottom b, left l, the measurement delivered to the
child render function (when an axis is enabled) is width = W−l−r and
height = H−t−b; with zero padding the child receives exactly W and H. -/
theorem padding_subtracted (c : Config) (n : NodeSize)
    (hw : c.disableWidth = false) (hh : c.disableHeight = false) :
    (measureDelivered c n).width
      = some (n.offsetWidth - n.paddingLeft - n.paddingRight) ∧
    (measureDelivered c n).height
      = some (n.offsetHeight - n.paddingTop - n.paddingBottom) := by
  simp [measureDelivered, contentWidth, contentHeight, hw, hh]

/-- Witness for C1 at the spec example: container 200×100 with paddingTop 15,
paddingRight 4, paddingBottom 10, paddingLeft 4 delivers width 192 and
height 75. -/
theorem padding_subtracted_witness :
    (measureDelivered ⟨false, false, none, none⟩ ⟨200, 100, 15, 4, 10, 4⟩).width = some 192 ∧
    (measureDelivered ⟨false, false, none, none⟩ ⟨200, 100, 15, 4, 10, 4⟩).height = some 75 := by
  have h := padding_subtracted ⟨false, false, none, none⟩ ⟨200, 100, 15, 4, 10, 4⟩ rfl rfl
  exact ⟨h.1.trans (by decide), h.2.trans (by decide)⟩

/-- Claim C2: for every configuration and every sequence of resize events,
whenever an axis is disabled, the value for that axis delivered to the child
render function (initial render and every re-render) and to onResize is
undefined, regardless of the actual measured container size. -/
theorem disabled_axis_undefined (c : Config) (events : List NodeSize) :
    (c.disableWidth = true →
      (initialRender c).width = none ∧
      (∀ m ∈ (run c events (mountState c)).childLog, m.width = none) ∧
      (∀ m ∈ (run c events (mountState c)).resizeLog, m.width = none)) ∧
    (c.disableHeight = true →
      (initialRender c).height = none ∧
      (∀ m ∈ (run c events (mountState c)).childLog, m.height = none) ∧
      (∀ m ∈ (run c events (mountState c)).resizeLog, m.height = none)) := by
  constructor
  · intro hw
    refine ⟨by simp [initialRender, hw], ?_⟩
    have h := run_logs_forall c (fun m => m.width = none)
      (fun n => by simp [measureDelivered, hw]) events (mountState c)
      (by intro m hm; simp [mountState] at hm)
      (by intro m hm; simp [mountState] at hm)
    exact ⟨h.1, h.2⟩
  · intro hh
    refine ⟨by simp [initialRender, hh], ?_⟩
    have h := run_logs_forall c (fun m => m.height = none)
      (fun n => by simp [measureDelivered, hh]) events (mountState c)
      (by intro m hm; simp [mountState] at hm)
      (by intro m hm; simp [mountState] at hm)
    exact ⟨h.1, h.2⟩

/-- Witness for C2: with disableWidth (resp. disableHeight) set and a resize
event of actual size 300×100 with no padding, every onResize delivery has an
undefined width (resp. height). -/
theorem disabled_axis_undefined_witness :
    (∀ m ∈ (run ⟨true, false, none, none⟩ [⟨300, 100, 0, 0, 0, 0⟩]
        (mountState ⟨true, false, none, none⟩)).resizeLog, m.width = none) ∧
    (∀ m ∈ (run ⟨false, true, none, none⟩ [⟨300, 100, 0, 0, 0, 0⟩]
        (mountState ⟨false, true, none, none⟩)).resizeLog, m.height = none) :=
  ⟨((disabled_axis_undefined ⟨true, false, none, none⟩ [⟨300, 100, 0, 0, 0, 0⟩]).1 rfl).2.2,
   ((disabled_axis_undefined ⟨false, true, none, none⟩ [⟨300, 100, 0, 0, 0, 0⟩]).2 rfl).2.2⟩

/-- Claim C3: a resize event whose newly measured values equal the stored
values on every enabled axis (including events that change only a disabled
axis) causes no re-render, no onResize invocation, and leaves the stored
Measurement unchanged: the state is exactly as before. -/
theorem no_change_no_effect (c : Config) (n : NodeSize) (s : State)
    (hm : s.measured = true)
    (hw : c.disableWidth = false → s.stored.width = some (contentWidth n))
    (hh : c.disableHeight = false → s.stored.height = some (contentHeight n)) :
    onResizeEvent c n s = s := by
  have hg : gateDiffers c s (measureDelivered c n) = false := by
    unfold gateDiffers measureDelivered
    cases hcw : c.disableWidth <;> cases hch : c.disableHeight <;> simp_all
  have ha : accepts c n s = false := by
    unfold accepts
    simp [hm, hg]
  unfold onResizeEvent
  simp [ha]

/-- Witness for C3: a measured instance storing 200×100 receives an event
reporting the same outer size 200×100 with zero padding; the state is
unchanged. -/
theorem no_change_no_effect_witness :
    (⟨⟨some 200, some 100⟩, true, [], [], false⟩ : State).measured = true ∧
    onResizeEvent ⟨false, false, none, none⟩ ⟨200, 100, 0, 0, 0, 0⟩
        ⟨⟨some 200, some 100⟩, true, [], [], false⟩
      = ⟨⟨some 200, some 100⟩, true, [], [], false⟩ :=
  ⟨rfl, no_change_no_effect ⟨false, false, none, none⟩ ⟨200, 100, 0, 0, 0, 0⟩
    ⟨⟨some 200, some 100⟩, true, [], [], false⟩ rfl (fun _ => rfl) (fun _ => rfl)⟩

/-- Claim C4: on a mounted instance, a resize event that changes the value of
at least one enabled axis appends exactly one child re-render carrying the
new measured values, stores the new Measurement, and appends exactly one
onResize invocation with those (possibly disabled-as-undefined) values. -/
theorem change_triggers_once (c : Config) (n : NodeSize) (s : State)
    (hmounted : s.unmounted = false)
    (hdiff : gateDiffers c s (measureDelivered c n) = true) :
    (onResizeEvent c n s).childLog = s.childLog ++ [measureDelivered c n] ∧
    (onResizeEvent c n s).resizeLog = s.resizeLog ++ [measureDelivered c n] ∧
    (onResizeEvent c n s).stored = measureDelivered c n := by
  have ha : accepts c n s = true := by
    unfold accepts
    simp [hmounted, hdiff]
  unfold onResizeEvent
  simp [ha]

/-- Witness for C4: a measured instance storing 200×100 receives an event of
outer size 300×400 with zero padding; both logs gain exactly the entry
(300, 400) and the stored Measurement becomes (300, 400). -/
theorem change_triggers_once_witness :
    (⟨⟨some 200, some 100⟩, true, [], [], false⟩ : State).unmounted = false ∧
    gateDiffers ⟨false, false, none, none⟩ ⟨⟨some 200, some 100⟩, true, [], [], false⟩
      (measureDelivered ⟨false, false, none, none⟩ ⟨300, 400, 0, 0, 0, 0⟩) = true ∧
    (onResizeEvent ⟨false, false, none, none⟩ ⟨300, 400, 0, 0, 0, 0⟩
        ⟨⟨some 200, some 100⟩, true, [], [], false⟩).resizeLog
      = [measureDelivered ⟨false, false, none, none⟩ ⟨300, 400, 0, 0, 0, 0⟩] :=
  ⟨rfl, by decide,
   (change_triggers_once ⟨false, false, none, none⟩ ⟨300, 400, 0, 0, 0, 0⟩
     ⟨⟨some 200, some 100⟩, true, [], [], false⟩ rfl (by decide)).2.1⟩

/-- Claim C5: with a DOM present, onResize is invoked exactly once immediately
after mount (the first concrete measurement), and after any further sequence
of resize events the total number of onResize invocations is 1 plus the
number of events the gate accepted. -/
theorem onResize_count (c : Config) (n0 : NodeSize) (events : List NodeSize) :
    (mountWithDOM c n0).resizeLog.length = 1 ∧
    (run c events (mountWithDOM c n0)).resizeLog.length
      = 1 + acceptedCount c (mountWithDOM c n0) events := by
  have h1 : (mountWithDOM c n0).resizeLog.length = 1 := by
    unfold mountWithDOM onResizeEvent accepts mountState
    simp
  exact ⟨h1, by rw [run_resizeLog_length c events (mountWithDOM c n0), h1]⟩

/-- Claim C6: a render performed before any concrete measurement (e.g. server
rendering) delivers defaultWidth/defaultHeight to the child when provided and
undefined otherwise, independent of any container size; with no resize
collaborator (no events) the component never updates and this is no error. -/
theorem server_render_defaults (c : Config) :
    (initialRender c).width = (if c.disableWidth then none else c.defaultWidth) ∧
    (initialRender c).height = (if c.disableHeight then none else c.defaultHeight) ∧
    (mountState c).stored = initialRender c ∧
    (mountState c).childLog = [] ∧
    (mountState c).resizeLog = [] ∧
    run c [] (mountState c) = mountState c :=
  ⟨rfl, rfl, rfl, rfl, rfl, rfl⟩

/-- Claim C7: after unmount, no callback is ever invoked again: any sequence
of resize events delivered after unmount (including debounced callbacks that
were scheduled before unmount but fire after it) leaves the state untouched,
so the onResize log and the child re-render log never grow. -/
theorem unmount_cancels (c : Config) (events : List NodeSize) (s : State) :
    run c events (unmount s) = unmount s ∧
    (run c events (unmount s)).resizeLog = s.resizeLog ∧
    (run c events (unmount s)).childLog = s.childLog := by
  have h := run_of_unmounted c events (unmount s) rfl
  exact ⟨h, by rw [h]; rfl, by rw [h]; rfl⟩

/-- Claim C8: resize handling is idempotent in the measured size: delivering
the same node reading twice in a row yields exactly the state after the first
delivery — same stored Measurement, same child re-render log, same onResize
log. -/
theorem resize_idempotent (c : Config) (n : NodeSize) (s : State) :
    onResizeEvent c n (onResizeEvent c n s) = onResizeEvent c n s := by
  by_cases h : accepts c n s = true
  · exact onResizeEvent_of_reject c n (onResizeEvent c n s) (accepts_onResizeEvent c n s h)
  · have hb : accepts c n s = false := by simpa using h
    rw [onResizeEvent_of_reject c n s hb]
    exact onResizeEvent_of_reject c n s hb

/-- Claim C9: props supplied to the child other than width and height (foo
and bar in the test harness) reach the child unmodified, whatever the
configuration and whatever Measurement is being rendered (initial render or
any re-render after a resize event). -/
theorem props_passthrough (c : Config) (m : Measurement) (foo bar : Int) :
    (renderChild c m foo bar).foo = foo ∧ (renderChild c m foo bar).bar = bar :=
  ⟨rfl, rfl⟩

/-- Claim C10: rendering is deterministic: two renders with identical
configuration (disable flags, defaults, paddings) and identical reported
offsetWidth/offsetHeight deliver identical width and height values to the
child. -/
theorem render_deterministic (c1 c2 : Config) (n1 n2 : NodeSize)
    (hc : c1 = c2) (hn : n1 = n2) :
    measureDelivered c1 n1 = measureDelivered c2 n2 := by
  rw [hc, hn]

/-- Witness for C10 at a concrete configuration and node reading. -/
theorem render_deterministic_witness :
    measureDelivered ⟨false, false, none, none⟩ ⟨200, 100, 0, 0, 0, 0⟩
      = measureDelivered ⟨false, false, none, none⟩ ⟨200, 100, 0, 0, 0, 0⟩ :=
  render_deterministic ⟨false, false, none, none⟩ ⟨false, false, none, none⟩
    ⟨200, 100, 0, 0, 0, 0⟩ ⟨200, 100, 0, 0, 0, 0⟩ rfl rfl

end AutoSizer
